import Mathlib

/-!
# Verification of `QAClipboard.py`

A shallow embedding of the clipboard question/answer monitor
(`ClipboardMonitor`, the `_Main` metaclass loader) together with proofs of
the specified properties.

Modelling conventions:
* Python dynamic values that reach the validation code are embedded as the
  inductive `PyVal`; `type(x)` is embedded as the type-name string `pyTypeName`.
* Python exceptions are embedded as the inductive `PyErr`; a raising function
  returns `Except PyErr _`.  A Python f-string such as
  `f"question type should match {str}. {type(q)} given instead."` is embedded
  structurally as `PyErr.typeError expected actual`, where `expected` and
  `actual` are the two interpolated type names.
* The system clipboard is a `String`, carried in the state `MState`; a
  `pyperclip.copy` call is recorded as an explicit write event so that
  "no write" and "write of the same value" stay distinguishable.
* The Python `dict[str, str]` is embedded as an association list
  `List (String × String)`; the `set` of answers is embedded as the list of
  values (only membership is ever used, for which the two agree).
-/

set_option autoImplicit false

namespace QAClipboard

/-- Embedding of the Python runtime values that can reach the type-validation
code of `ClipboardMonitor.__init__` and of the `prev_data` setter. -/
inductive PyVal where
  | str (s : String)
  | int (n : Int)
  | bool (b : Bool)
  | pynone
  | pylist (xs : List PyVal)
  | pydict (entries : List (PyVal × PyVal))

/-- `isinstance(x, str)`. -/
def PyVal.isStr : PyVal → Bool
  | .str _ => true
  | _ => false

/-- Embedding of Python `type(x).__name__` for the values above: the name that
`f"{type(x)}"` interpolates (Python prints `<class 'str'>`; we keep the
class-name part `str`). -/
def pyTypeName : PyVal → String
  | .str _ => "str"
  | .int _ => "int"
  | .bool _ => "bool"
  | .pynone => "NoneType"
  | .pylist _ => "list"
  | .pydict _ => "dict"

/-- Embedding of the Python exceptions raised (or caught) by the program.
`typeError expected actual` stands for
`TypeError(f"... type should match {expected}. {actual} given instead.")`. -/
inductive PyErr where
  | typeError (expected actual : String)
  | valueError (msg : String)
  | jsonDecodeError (msg : String)
  | permissionError
  | keyboardInterrupt
deriving DecidableEq, Repr

/-- The full monitor state: the immutable question→answer mapping
(`self.__dict_qa`), the answer set (`self.__answers`, kept as the list of
values — only membership is used), the last-seen clipboard value
(`self.__prev_data`) and the current system clipboard content. -/
structure MState where
  dict_qa : List (String × String)
  answers : List String
  prev_data : String
  clipboard : String
deriving DecidableEq, Repr

/-- Embedding of Python `d.get(k, default)` on the association list embedding
of the dict (keys of a Python dict are unique, so first match suffices). -/
def dict_get (d : List (String × String)) (k default : String) : String :=
  match d.find? (fun p => p.1 == k) with
  | some p => p.2
  | none => default

/-- Representation invariant tying the stored answer set to the mapping:
`self.__answers = set(self.__dict_qa.values())` (as membership, the list of
values). Every state built by `ClipboardMonitor.init` satisfies it. -/
def wf (s : MState) : Prop :=
  s.answers = s.dict_qa.map Prod.snd

instance (s : MState) : Decidable (wf s) := by
  unfold wf; infer_instance

/-- Embedding of `ClipboardMonitor.check_clipboard`:
reads the clipboard; if it differs from `prev_data`, stores it into
`prev_data`, then returns early when it is in the answer set, and otherwise
copies `dict_qa.get(new_data, 'NA')` to the clipboard.  The second component
records the clipboard write performed by the call, if any. -/
def check_clipboard (s : MState) : MState × Option String :=
  let new_data := s.clipboard
  if new_data ≠ s.prev_data then
    let s1 : MState := { s with prev_data := new_data }
    if s1.answers.contains s1.prev_data then
      (s1, none)
    else
      let out := dict_get s1.dict_qa new_data "NA"
      ({ s1 with clipboard := out }, some out)
  else
    (s, none)

/-- `n` successive `check_clipboard` calls with no external clipboard change
in between; collects every clipboard write performed. -/
def check_iter : Nat → MState → MState × List String
  | 0, s => (s, [])
  | n + 1, s =>
    let r1 := check_clipboard s
    let r2 := check_iter n r1.1
    (r2.1, r1.2.toList ++ r2.2)

/-- Embedding of the `prev_data` property setter: stores a `str`, raises
`TypeError(f"value type should match {str}. {type(value)} given instead.")`
for anything else. -/
def prev_data_set (s : MState) (v : PyVal) : Except PyErr MState :=
  match v with
  | .str x => .ok { s with prev_data := x }
  | other => .error (.typeError "str" (pyTypeName other))

/-- The exception handler of `start_monitoring`: its `try`/`except` catches
exactly `KeyboardInterrupt`; every other exception propagates and terminates
the process. -/
def loop_catches : PyErr → Bool
  | .keyboardInterrupt => true
  | _ => false

/-- Per-entry validation loop of `ClipboardMonitor.__init__`: each pair is
checked question first, answer second; the first non-`str` component raises
`TypeError` naming the expected (`str`) and the actual type. -/
def checkEntries : List (PyVal × PyVal) → Except PyErr Unit
  | [] => .ok ()
  | (q, a) :: rest =>
    match q with
    | .str _ =>
      match a with
      | .str _ => checkEntries rest
      | bad => .error (.typeError "str" (pyTypeName bad))
    | bad => .error (.typeError "str" (pyTypeName bad))

/-- Extracts the `(question, answer)` string pairs of a validated entry list
(after `checkEntries` succeeds this keeps every entry). -/
def toPairs (entries : List (PyVal × PyVal)) : List (String × String) :=
  entries.filterMap fun p =>
    match p with
    | (.str q, .str a) => some (q, a)
    | _ => none

/-- Embedding of `ClipboardMonitor.__init__`: validates that `dict_qa` is a
dict of `str → str` (raising `TypeError` otherwise), stores the mapping and
the set of its values, initializes `prev_data` to the empty string and clears
the clipboard with `pyperclip.copy(str())`.  `clip0` is the clipboard content
found at construction time (it is overwritten).  On success it returns the
initial state together with the list of clipboard writes performed
(exactly the clearing write of `""`). -/
def ClipboardMonitor.init (dict_qa : PyVal) (clip0 : String) :
    Except PyErr (MState × List String) :=
  match dict_qa with
  | .pydict entries =>
    match checkEntries entries with
    | .error e => .error e
    | .ok _ =>
      let pairs := toPairs entries
      let _ := clip0
      .ok ({ dict_qa := pairs
             answers := pairs.map Prod.snd
             prev_data := ""
             clipboard := "" }, [""])
  | other => .error (.typeError "dict" (pyTypeName other))

/-- Decidable shape check used to state the validation claims: `v` is a dict
whose keys and values are all text. -/
def validQA : PyVal → Bool
  | .pydict entries => entries.all fun p => p.1.isStr && p.2.isStr
  | _ => false

/-- Modelled from the spec: the "offending entry" of a malformed mapping — the
first component, in dict order and question-before-answer order, that is not
text ("a malformed entry (non-text key or value) fails with a validation
error identifying the offending entry and its actual type").  Used to compare
the error raised by the source's validation loop against the spec's words. -/
def spec_firstOffender : List (PyVal × PyVal) → Option PyVal
  | [] => none
  | (q, a) :: rest =>
    match q with
    | .str _ =>
      match a with
      | .str _ => spec_firstOffender rest
      | bad => some bad
    | bad => some bad

/-- Outcome of `open('dict_qa.txt', 'r')` followed by `file.read()`: the file
content as a character list, `FileNotFoundError`, or `PermissionError`
(the "unreadable" case). -/
inductive FileAccess where
  | found (contents : List Char)
  | notFound
  | permissionDenied

/-- The character-level effect of `.replace("'", '"')` on one character. -/
def replChar (c : Char) : Char :=
  if c = '\'' then '"' else c

/-- Embedding of `file.read().replace("'", '"')`: the pattern is one
character, so the replacement is character-wise. -/
def replaceQuotes (cs : List Char) : List Char :=
  cs.map replChar

/-- Errors of the parsing stage `dict(json.loads(...))`:
`decodeError` stands for `json.JSONDecodeError`, `dictTypeError` for the
`TypeError` that `dict(x)` raises when the decoded value is not a mapping. -/
inductive ParseErr where
  | decodeError (msg : String)
  | dictTypeError (msg : String)
deriving DecidableEq, Repr

/-- Whitespace skipping of the JSON grammar. -/
def skipWs : List Char → List Char
  | [] => []
  | c :: rest =>
    if c = ' ' ∨ c = '\n' ∨ c = '\t' ∨ c = '\r' then skipWs rest else c :: rest

/-- The JSON single-character string escapes: `\"`, `\\` and `\/` denote the
escaped character itself, `\n`, `\t`, `\r`, `\b`, `\f` the usual control
characters; everything else is invalid. -/
def unescapeChar (e : Char) : Option Char :=
  if e = 'n' then some '\n'
  else if e = 't' then some '\t'
  else if e = 'r' then some '\r'
  else if e = 'b' then some (Char.ofNat 8)
  else if e = 'f' then some (Char.ofNat 12)
  else if e = '"' ∨ e = '\\' ∨ e = '/' then some e
  else none

/-- Parses the body of a JSON string after the opening `"`, returning the
decoded characters and the rest of the input after the closing `"`. -/
def parseStringBody : List Char → Except ParseErr (List Char × List Char)
  | [] => .error (.decodeError "unterminated string")
  | c :: rest =>
    if c = '"' then .ok ([], rest)
    else if c = '\\' then
      match rest with
      | [] => .error (.decodeError "unterminated escape")
      | e :: rest2 =>
        match unescapeChar e with
        | some u =>
          match parseStringBody rest2 with
          | .ok (s, r) => .ok (u :: s, r)
          | .error err => .error err
        | none => .error (.decodeError "invalid escape")
    else
      match parseStringBody rest with
      | .ok (s, r) => .ok (c :: s, r)
      | .error err => .error err

/-- Parses the non-empty member list of a flat JSON object of text keys and
text values (the documented `dict_qa.txt` format), starting right after `{`
(or after a `,`), through the closing `}` and trailing whitespace.
Fuel-driven; the top-level entry point supplies enough fuel. -/
def parsePairs : Nat → List Char → Except ParseErr (List (String × String))
  | 0, _ => .error (.decodeError "out of fuel")
  | fuel + 1, cs =>
    match skipWs cs with
    | '"' :: r0 =>
      match parseStringBody r0 with
      | .error e => .error e
      | .ok (k, r1) =>
        match skipWs r1 with
        | ':' :: r2 =>
          match skipWs r2 with
          | '"' :: r3 =>
            match parseStringBody r3 with
            | .error e => .error e
            | .ok (v, r4) =>
              match skipWs r4 with
              | ',' :: r5 =>
                match parsePairs fuel r5 with
                | .ok tail => .ok ((⟨k⟩, ⟨v⟩) :: tail)
                | .error e => .error e
              | '}' :: r5 =>
                if skipWs r5 = [] then .ok [(⟨k⟩, ⟨v⟩)]
                else .error (.decodeError "extra data")
              | _ => .error (.decodeError "expected comma or closing brace")
          | _ => .error (.decodeError "expected string value")
        | _ => .error (.decodeError "expected colon")
    | _ => .error (.decodeError "expected string key")

/-- Modelled from the spec: `dict(json.loads(text))` — the `json` standard
library is not part of this repository, so JSON decoding is modelled for the
documented mapping-file format, a flat object of text keys and text values
("The dictionary should look like this: { 'Q': \x22A\x22, ... }"). A decoded
top-level value that is not an object makes `dict(...)` raise `TypeError`. -/
def parseQA (cs : List Char) : Except ParseErr (List (String × String)) :=
  match skipWs cs with
  | '{' :: rest =>
    match skipWs rest with
    | '}' :: tail =>
      if skipWs tail = [] then .ok []
      else .error (.decodeError "extra data")
    | _ => parsePairs (cs.length + 1) rest
  | _ :: _ => .error (.dictTypeError "decoded value is not a dict")
  | [] => .error (.decodeError "empty input")

/-- Embedding of `_Main.__dict_init`: reads `dict_qa.txt`, replaces every
single quote by a double quote, decodes it as JSON and builds the dict.
`FileNotFoundError` and `TypeError` are caught and re-raised as
`ValueError(f"No QA initialized. An exception occurred: {e}")`; every other
exception (a `json.JSONDecodeError`, a `PermissionError` from `open`)
propagates unchanged. -/
def dict_init (f : FileAccess) : Except PyErr (List (String × String)) :=
  match f with
  | .found cs =>
    match parseQA (replaceQuotes cs) with
    | .ok tbl => .ok tbl
    | .error (.decodeError m) => .error (.jsonDecodeError m)
    | .error (.dictTypeError m) =>
      .error (.valueError ("No QA initialized. An exception occurred: " ++ m))
  | .notFound =>
    .error (.valueError
      "No QA initialized. An exception occurred: [Errno 2] No such file or directory: dict_qa.txt")
  | .permissionDenied => .error .permissionError

/-- Escaping of one character inside a string literal delimited by `delim`:
the delimiter itself and the backslash are escaped, everything else is
written verbatim. -/
def escChar (delim c : Char) : List Char :=
  if c = delim ∨ c = '\\' then ['\\', c] else [c]

/-- Escaping of a whole character sequence for a `delim`-delimited literal. -/
def escAll (delim : Char) : List Char → List Char
  | [] => []
  | c :: rest => escChar delim c ++ escAll delim rest

/-- A string literal written with the delimiter `delim`. -/
def strLit (delim : Char) (s : String) : List Char :=
  delim :: (escAll delim s.data ++ [delim])

/-- One `key: value` member written with the delimiter `delim`. -/
def entryChars (delim : Char) (p : String × String) : List Char :=
  strLit delim p.1 ++ ':' :: ' ' :: strLit delim p.2

/-- The comma-separated member list written with the delimiter `delim`. -/
def bodyChars (delim : Char) : List (String × String) → List Char
  | [] => []
  | [p] => entryChars delim p
  | p :: rest => entryChars delim p ++ ',' :: ' ' :: bodyChars delim rest

/-- Modelled from the spec: "the file written with double-quoted strings" —
the key/value table serialized as a flat JSON object with double-quoted
string literals. -/
def writeDouble (tbl : List (String × String)) : List Char :=
  '{' :: (bodyChars '"' tbl ++ ['}'])

/-- Modelled from the spec: "the file written with single-quoted strings" —
the same table with single-quoted string literals (Python-repr style:
the single quote is the delimiter and is escaped inside literals). -/
def writeSingle (tbl : List (String × String)) : List Char :=
  '{' :: (bodyChars '\'' tbl ++ ['}'])

/-- The complete load pipeline of `_Main.__dict_init` on given file text:
quote replacement followed by JSON decoding. -/
def loadMapping (cs : List Char) : Except ParseErr (List (String × String)) :=
  parseQA (replaceQuotes cs)

/-! ## Helper lemmas on `check_clipboard` -/

theorem check_clipboard_of_eq (s : MState) (h : s.clipboard = s.prev_data) :
    check_clipboard s = (s, none) := by
  unfold check_clipboard
  simp [h]

theorem check_iter_of_eq (s : MState) (h : s.clipboard = s.prev_data) (n : Nat) :
    check_iter n s = (s, []) := by
  induction n with
  | zero => rfl
  | succ n ih =>
    unfold check_iter check_clipboard
    simp [h, ih]

theorem check_clipboard_of_mem (s : MState) (hne : s.clipboard ≠ s.prev_data)
    (hans : s.clipboard ∈ s.answers) :
    check_clipboard s = ({ s with prev_data := s.clipboard }, none) := by
  unfold check_clipboard
  simp [hne, hans]

theorem check_clipboard_of_not_mem (s : MState) (hne : s.clipboard ≠ s.prev_data)
    (hans : s.clipboard ∉ s.answers) :
    check_clipboard s = ({ s with prev_data := s.clipboard, clipboard := dict_get s.dict_qa s.clipboard "NA" }, some (dict_get s.dict_qa s.clipboard "NA")) := by
  unfold check_clipboard
  simp [hne, hans]

theorem dict_get_of_not_key (d : List (String × String)) (k dflt : String)
    (h : k ∉ d.map Prod.fst) : dict_get d k dflt = dflt := by
  unfold dict_get
  have hf : d.find? (fun p => p.1 == k) = none := by
    rw [List.find?_eq_none]
    intro x hx hbeq
    exact h (List.mem_map.mpr ⟨x, hx, by simpa using hbeq⟩)
  rw [hf]

theorem check_clipboard_write_prev (u u' : MState) (out : String)
    (h : check_clipboard u = (u', some out)) : u'.prev_data = u.clipboard := by
  by_cases h1 : u.clipboard = u.prev_data
  · rw [check_clipboard_of_eq u h1] at h
    exact absurd (congrArg Prod.snd h) (by simp)
  · by_cases h2 : u.clipboard ∈ u.answers
    · rw [check_clipboard_of_mem u h1 h2] at h
      exact absurd (congrArg Prod.snd h) (by simp)
    · rw [check_clipboard_of_not_mem u h1 h2] at h
      have := congrArg Prod.fst h
      simp only at this
      rw [← this]

/-! ## Helper lemmas on the validation of `__init__` -/

theorem checkEntries_of_offender (entries : List (PyVal × PyVal)) (off : PyVal)
    (h : spec_firstOffender entries = some off) :
    checkEntries entries = .error (.typeError "str" (pyTypeName off)) := by
  induction entries with
  | nil => simp [spec_firstOffender] at h
  | cons p rest ih =>
    obtain ⟨q, a⟩ := p
    cases q <;> cases a <;> simp only [spec_firstOffender] at h <;>
      first
      | exact ih h
      | (injection h with h2; subst h2; rfl)

theorem exists_offender_of_not_validQA (entries : List (PyVal × PyVal))
    (h : entries.all (fun p => p.1.isStr && p.2.isStr) = false) :
    ∃ off, spec_firstOffender entries = some off := by
  induction entries with
  | nil => simp at h
  | cons p rest ih =>
    obtain ⟨q, a⟩ := p
    cases q <;> cases a <;>
      first
      | exact ⟨_, rfl⟩
      | (refine ih ?_; simpa [PyVal.isStr] using h)

/-! ## Claim theorems -/

/-- C1, counterexample: the claim "for every key `k` of the mapping, a call
with clipboard `k` (different from the last-seen value) leaves the clipboard
set to `mapping[k]`" fails when `k` is also an answer value.  With the mapping
`{"a": "b", "c": "a"}`, last-seen `""` and clipboard `"a"`, the call leaves
the clipboard at `"a"`, not at `mapping["a"] = "b"`. -/
theorem claim_C1_counterexample :
    wf (⟨[("a", "b"), ("c", "a")], ["b", "a"], "", "a"⟩ : MState) ∧
    "a" ∈ ([("a", "b"), ("c", "a")] : List (String × String)).map Prod.fst ∧
    (¬ ("a" : String) = "") ∧
    dict_get [("a", "b"), ("c", "a")] "a" "NA" = "b" ∧
    ¬ (check_clipboard ⟨[("a", "b"), ("c", "a")], ["b", "a"], "", "a"⟩).1.clipboard = "b" := by
  decide

/-- C1, amended: for every key `k` of the mapping that is not itself in the
answer set, calling `check_clipboard` when the clipboard holds `k` (and `k`
differs from the last-seen value) writes `mapping[k]` and leaves the
clipboard set to it. -/
theorem check_clipboard_key_writes_answer (s : MState) (k v : String)
    (hwf : wf s) (hclip : s.clipboard = k) (hne : k ≠ s.prev_data)
    (hkey : k ∈ s.dict_qa.map Prod.fst)
    (hget : dict_get s.dict_qa k "NA" = v)
    (hans : k ∉ s.answers) :
    (check_clipboard s).1.clipboard = v ∧ (check_clipboard s).2 = some v := by
  subst hclip
  rw [check_clipboard_of_not_mem s hne hans]
  simp [hget]

/-- Witness for `check_clipboard_key_writes_answer` at the mapping
`{"q": "ans"}`, last-seen `""`, clipboard `"q"`. -/
theorem check_clipboard_key_writes_answer_witness :
    (check_clipboard ⟨[("q", "ans")], ["ans"], "", "q"⟩).1.clipboard = "ans" ∧
    (check_clipboard ⟨[("q", "ans")], ["ans"], "", "q"⟩).2 = some "ans" :=
  check_clipboard_key_writes_answer ⟨[("q", "ans")], ["ans"], "", "q"⟩ "q" "ans"
    (by decide) rfl (by decide) (by decide) (by decide) (by decide)

/-- C2: for every text that is neither a key of the mapping nor an answer
value, a call with that text on the clipboard (different from the last-seen
value) writes the sentinel `"NA"` and leaves the clipboard set to it. -/
theorem check_clipboard_unknown_writes_sentinel (s : MState)
    (hwf : wf s) (hne : s.clipboard ≠ s.prev_data)
    (hkey : s.clipboard ∉ s.dict_qa.map Prod.fst)
    (hans : s.clipboard ∉ s.answers) :
    (check_clipboard s).1.clipboard = "NA" ∧ (check_clipboard s).2 = some "NA" := by
  rw [check_clipboard_of_not_mem s hne hans]
  simp [dict_get_of_not_key s.dict_qa s.clipboard "NA" hkey]

/-- Witness for `check_clipboard_unknown_writes_sentinel` at the mapping
`{"q": "ans"}`, last-seen `""`, clipboard `"zzz"`. -/
theorem check_clipboard_unknown_writes_sentinel_witness :
    (check_clipboard ⟨[("q", "ans")], ["ans"], "", "zzz"⟩).1.clipboard = "NA" ∧
    (check_clipboard ⟨[("q", "ans")], ["ans"], "", "zzz"⟩).2 = some "NA" :=
  check_clipboard_unknown_writes_sentinel ⟨[("q", "ans")], ["ans"], "", "zzz"⟩
    (by decide) (by decide) (by decide) (by decide)

/-- C3: whenever the clipboard holds a value of the mapping (a member of the
answer set), `check_clipboard` performs no clipboard write and the clipboard
content is unchanged — for every mapping and every last-seen value. -/
theorem check_clipboard_answer_is_readonly (s : MState)
    (hwf : wf s) (hans : s.clipboard ∈ s.dict_qa.map Prod.snd) :
    (check_clipboard s).1.clipboard = s.clipboard ∧ (check_clipboard s).2 = none := by
  have hans' : s.clipboard ∈ s.answers := by rw [hwf]; exact hans
  by_cases h1 : s.clipboard = s.prev_data
  · rw [check_clipboard_of_eq s h1]
    exact ⟨rfl, rfl⟩
  · rw [check_clipboard_of_mem s h1 hans']
    exact ⟨rfl, rfl⟩

/-- Witness for `check_clipboard_answer_is_readonly` at the mapping
`{"q": "ans"}`, last-seen `""`, clipboard `"ans"`. -/
theorem check_clipboard_answer_is_readonly_witness :
    (check_clipboard ⟨[("q", "ans")], ["ans"], "", "ans"⟩).1.clipboard = "ans" ∧
    (check_clipboard ⟨[("q", "ans")], ["ans"], "", "ans"⟩).2 = none :=
  check_clipboard_answer_is_readonly ⟨[("q", "ans")], ["ans"], "", "ans"⟩
    (by decide) (by decide)

/-- C4: if the clipboard equals the last-seen value, `check_clipboard`
returns the state unchanged (mapping, answer set and last-seen value
included) with no write, and any number of repeated calls still performs no
write. -/
theorem check_clipboard_unchanged_is_noop (s : MState) (n : Nat)
    (h : s.clipboard = s.prev_data) :
    check_clipboard s = (s, none) ∧ check_iter n s = (s, []) :=
  ⟨check_clipboard_of_eq s h, check_iter_of_eq s h n⟩

/-- Witness for `check_clipboard_unchanged_is_noop` at the mapping
`{"q": "ans"}`, last-seen `"x"`, clipboard `"x"`, three repeated calls. -/
theorem check_clipboard_unchanged_is_noop_witness :
    check_clipboard ⟨[("q", "ans")], ["ans"], "x", "x"⟩ = (⟨[("q", "ans")], ["ans"], "x", "x"⟩, none) ∧
    check_iter 3 ⟨[("q", "ans")], ["ans"], "x", "x"⟩ = (⟨[("q", "ans")], ["ans"], "x", "x"⟩, []) :=
  check_clipboard_unchanged_is_noop ⟨[("q", "ans")], ["ans"], "x", "x"⟩ 3 rfl

/-- C10, counterexample: with the empty mapping (so `"NA"` is neither key nor
value), last-seen `"x"` and clipboard `"NA"`, the first call is a sentinel
write of `"NA"`, yet the immediately following call performs no write — the
claim predicts one more `"NA"` write. -/
theorem claim_C10_counterexample :
    (check_clipboard ⟨[], [], "x", "NA"⟩).2 = some "NA" ∧
    ¬ "NA" ∈ ([] : List (String × String)).map Prod.fst ∧
    ¬ "NA" ∈ ([] : List (String × String)).map Prod.snd ∧
    (check_clipboard (check_clipboard ⟨[], [], "x", "NA"⟩).1).2 = none := by
  decide

/-- C10, amended: (a) whenever `check_clipboard` performs a write, the new
last-seen value is the text read from the clipboard (the trigger), not the
text written; (b) when the trigger is unknown, not an answer, and itself
different from `"NA"`, and `"NA"` is neither a key nor a value of the
mapping, the call after the sentinel write writes `"NA"` once more, and every
call after that performs no write. -/
theorem check_clipboard_sentinel_echo (s : MState)
    (hwf : wf s) (hne : s.clipboard ≠ s.prev_data)
    (hkey : s.clipboard ∉ s.dict_qa.map Prod.fst)
    (hans : s.clipboard ∉ s.answers)
    (hNAkey : "NA" ∉ s.dict_qa.map Prod.fst)
    (hNAans : "NA" ∉ s.answers)
    (htNA : s.clipboard ≠ "NA") :
    (∀ u u' : MState, ∀ out : String,
        check_clipboard u = (u', some out) → u'.prev_data = u.clipboard) ∧
    (check_clipboard s).2 = some "NA" ∧
    (check_clipboard (check_clipboard s).1).2 = some "NA" ∧
    ∀ n : Nat, check_iter n (check_clipboard (check_clipboard s).1).1 =
      ((check_clipboard (check_clipboard s).1).1, []) := by
  have hstep1 : check_clipboard s = ({ s with prev_data := s.clipboard, clipboard := "NA" }, some "NA") := by
    rw [check_clipboard_of_not_mem s hne hans,
      dict_get_of_not_key s.dict_qa s.clipboard "NA" hkey]
  have hstep2 : check_clipboard ({ s with prev_data := s.clipboard, clipboard := "NA" } : MState) =
      ({ s with prev_data := "NA", clipboard := "NA" }, some "NA") := by
    rw [check_clipboard_of_not_mem _ (by simpa using htNA.symm) (by simpa using hNAans),
      dict_get_of_not_key _ _ _ (by simpa using hNAkey)]
  refine ⟨check_clipboard_write_prev, ?_, ?_, ?_⟩
  · rw [hstep1]
  · rw [hstep1]
    simp only
    rw [hstep2]
  · intro n
    rw [hstep1]
    simp only
    rw [hstep2]
    simp only
    exact check_iter_of_eq _ rfl n

/-- Witness for `check_clipboard_sentinel_echo` at the mapping
`{"q": "ans"}`, last-seen `""`, clipboard `"zzz"`. -/
theorem check_clipboard_sentinel_echo_witness :
    (∀ u u' : MState, ∀ out : String,
        check_clipboard u = (u', some out) → u'.prev_data = u.clipboard) ∧
    (check_clipboard ⟨[("q", "ans")], ["ans"], "", "zzz"⟩).2 = some "NA" ∧
    (check_clipboard (check_clipboard ⟨[("q", "ans")], ["ans"], "", "zzz"⟩).1).2 = some "NA" ∧
    ∀ n : Nat, check_iter n (check_clipboard (check_clipboard ⟨[("q", "ans")], ["ans"], "", "zzz"⟩).1).1 =
      ((check_clipboard (check_clipboard ⟨[("q", "ans")], ["ans"], "", "zzz"⟩).1).1, []) :=
  check_clipboard_sentinel_echo ⟨[("q", "ans")], ["ans"], "", "zzz"⟩
    (by decide) (by decide) (by decide) (by decide) (by decide) (by decide) (by decide)

/-- C5: a missing mapping file makes `__dict_init` fail with the
`ValueError` initialization error, an unreadable one makes it fail with the
propagating `PermissionError`; in neither case is any mapping — in
particular the empty one — returned. -/
theorem dict_init_missing_or_unreadable_fails :
    (∃ m, dict_init .notFound = .error (.valueError m)) ∧
    (∃ e, dict_init .permissionDenied = .error e) ∧
    (∀ tbl, dict_init .notFound ≠ .ok tbl) ∧
    (∀ tbl, dict_init .permissionDenied ≠ .ok tbl) :=
  ⟨⟨_, rfl⟩, ⟨_, rfl⟩, fun _ h => Except.noConfusion h, fun _ h => Except.noConfusion h⟩

/-- C6: constructing the monitor from anything that is not a dict of text
keys and text values fails with a `TypeError` and never yields a monitor;
for a dict, the error names `str` as the expected type and the actual type of
the first offending entry component; for a non-dict, it names `dict` and the
actual type of the argument. -/
theorem monitor_init_rejects_invalid_mapping (v : PyVal) (clip0 : String)
    (h : validQA v = false) :
    (∀ r, ClipboardMonitor.init v clip0 ≠ .ok r) ∧
    (∀ entries off, v = .pydict entries → spec_firstOffender entries = some off →
        ClipboardMonitor.init v clip0 = .error (.typeError "str" (pyTypeName off))) ∧
    ((∀ entries, v ≠ .pydict entries) →
        ClipboardMonitor.init v clip0 = .error (.typeError "dict" (pyTypeName v))) := by
  refine ⟨?_, ?_, ?_⟩
  · intro r hok
    cases v with
    | pydict entries =>
      obtain ⟨off, hoff⟩ :=
        exists_offender_of_not_validQA entries (by simpa [validQA] using h)
      rw [ClipboardMonitor.init, checkEntries_of_offender entries off hoff] at hok
      exact Except.noConfusion hok
    | str s => exact Except.noConfusion hok
    | int n => exact Except.noConfusion hok
    | bool b => exact Except.noConfusion hok
    | pynone => exact Except.noConfusion hok
    | pylist xs => exact Except.noConfusion hok
  · intro entries off hv hoff
    subst hv
    rw [ClipboardMonitor.init, checkEntries_of_offender entries off hoff]
  · intro hnd
    cases v with
    | pydict entries => exact absurd rfl (hnd entries)
    | str s => rfl
    | int n => rfl
    | bool b => rfl
    | pynone => rfl
    | pylist xs => rfl

/-- Witness for `monitor_init_rejects_invalid_mapping` at the mapping
`{"q": 5}` (text key, integer answer) and at the non-dict argument `3`. -/
theorem monitor_init_rejects_invalid_mapping_witness :
    validQA (.pydict [(.str "q", .int 5)]) = false ∧
    ClipboardMonitor.init (.pydict [(.str "q", .int 5)]) "" =
      .error (.typeError "str" "int") ∧
    ClipboardMonitor.init (.int 3) "" = .error (.typeError "dict" "int") :=
  ⟨rfl,
   (monitor_init_rejects_invalid_mapping (.pydict [(.str "q", .int 5)]) "" rfl).2.1
     [(.str "q", .int 5)] (.int 5) rfl rfl,
   (monitor_init_rejects_invalid_mapping (.int 3) "" rfl).2.2
     (fun _ h => PyVal.noConfusion h)⟩

/-- C8: the `prev_data` setter raises, for every non-text value, a
`TypeError` naming the actual type, and this exception is not among those the
watch loop catches (only `KeyboardInterrupt` is); for a text value it stores
exactly that string. -/
theorem prev_data_setter_type_guard (s : MState) (v : PyVal) :
    (v.isStr = false →
      ∃ act, prev_data_set s v = .error (.typeError "str" act) ∧
        loop_catches (.typeError "str" act) = false) ∧
    ∀ x : String, v = .str x → prev_data_set s v = .ok { s with prev_data := x } := by
  constructor
  · intro h
    cases v with
    | str x => simp [PyVal.isStr] at h
    | int n => exact ⟨"int", rfl, rfl⟩
    | bool b => exact ⟨"bool", rfl, rfl⟩
    | pynone => exact ⟨"NoneType", rfl, rfl⟩
    | pylist xs => exact ⟨"list", rfl, rfl⟩
    | pydict es => exact ⟨"dict", rfl, rfl⟩
  · intro x hv
    subst hv
    rfl

/-- Witness for `prev_data_setter_type_guard` at the non-text value `7` and
the text value `"hello"`. -/
theorem prev_data_setter_type_guard_witness :
    (∃ act, prev_data_set ⟨[], [], "", ""⟩ (.int 7) = .error (.typeError "str" act) ∧
      loop_catches (.typeError "str" act) = false) ∧
    prev_data_set ⟨[], [], "", ""⟩ (.str "hello") = .ok ⟨[], [], "hello", ""⟩ :=
  ⟨(prev_data_setter_type_guard ⟨[], [], "", ""⟩ (.int 7)).1 rfl,
   (prev_data_setter_type_guard ⟨[], [], "", ""⟩ (.str "hello")).2 "hello" rfl⟩

/-- C9: every successful construction performs exactly one clipboard write —
the clearing write of the empty string — and leaves both the clipboard and
the last-seen value empty, so every non-empty text differs from the stored
last-seen value. -/
theorem monitor_init_clears_clipboard (v : PyVal) (clip0 : String)
    (s : MState) (w : List String)
    (h : ClipboardMonitor.init v clip0 = .ok (s, w)) :
    s.clipboard = "" ∧ s.prev_data = "" ∧ w = [""] ∧
    ∀ t : String, t ≠ "" → t ≠ s.prev_data := by
  cases v with
  | pydict entries =>
    rw [ClipboardMonitor.init] at h
    cases hc : checkEntries entries with
    | error e =>
      rw [hc] at h
      exact Except.noConfusion h
    | ok u =>
      rw [hc] at h
      injection h with h1
      have hs := congrArg Prod.fst h1
      have hw := congrArg Prod.snd h1
      simp only at hs hw
      subst hs
      subst hw
      exact ⟨rfl, rfl, rfl, fun t ht => ht⟩
  | str x => exact Except.noConfusion h
  | int n => exact Except.noConfusion h
  | bool b => exact Except.noConfusion h
  | pynone => exact Except.noConfusion h
  | pylist xs => exact Except.noConfusion h

/-- Witness for `monitor_init_clears_clipboard` at the mapping `{"q": "a"}`
constructed while the clipboard held `"junk"`. -/
theorem monitor_init_clears_clipboard_witness :
    (⟨[("q", "a")], ["a"], "", ""⟩ : MState).clipboard = "" ∧
    (⟨[("q", "a")], ["a"], "", ""⟩ : MState).prev_data = "" ∧
    ([""] : List String) = [""] ∧
    ∀ t : String, t ≠ "" → t ≠ (⟨[("q", "a")], ["a"], "", ""⟩ : MState).prev_data :=
  monitor_init_clears_clipboard (.pydict [(.str "q", .str "a")]) "junk"
    ⟨[("q", "a")], ["a"], "", ""⟩ [""] rfl

/-! ## Helper lemmas on quote replacement over serialized tables -/

theorem map_replChar_escChar_single (c : Char) (h1 : c ≠ '\'') (h2 : c ≠ '"') :
    (escChar '\'' c).map replChar = escChar '"' c := by
  by_cases hb : c = '\\'
  · subst hb
    rfl
  · simp [escChar, replChar, h1, h2, hb]

theorem map_replChar_escChar_double (c : Char) (h1 : c ≠ '\'') :
    (escChar '"' c).map replChar = escChar '"' c := by
  by_cases hb : c = '\\'
  · subst hb
    rfl
  · by_cases hq : c = '"'
    · subst hq
      rfl
    · simp [escChar, replChar, h1, hq, hb]

theorem map_replChar_escAll_single (s : List Char) (h1 : '\'' ∉ s) (h2 : '"' ∉ s) :
    (escAll '\'' s).map replChar = escAll '"' s := by
  induction s with
  | nil => rfl
  | cons c cs ih =>
    rw [List.mem_cons] at h1 h2
    push_neg at h1 h2
    simp only [escAll, List.map_append]
    rw [map_replChar_escChar_single c (Ne.symm h1.1) (Ne.symm h2.1), ih h1.2 h2.2]

theorem map_replChar_escAll_double (s : List Char) (h1 : '\'' ∉ s) :
    (escAll '"' s).map replChar = escAll '"' s := by
  induction s with
  | nil => rfl
  | cons c cs ih =>
    rw [List.mem_cons] at h1
    push_neg at h1
    simp only [escAll, List.map_append]
    rw [map_replChar_escChar_double c (Ne.symm h1.1), ih h1.2]

theorem map_replChar_strLit_single (s : String) (h1 : '\'' ∉ s.data) (h2 : '"' ∉ s.data) :
    (strLit '\'' s).map replChar = strLit '"' s := by
  simp only [strLit, List.map_cons, List.map_append]
  rw [map_replChar_escAll_single s.data h1 h2]
  rfl

theorem map_replChar_strLit_double (s : String) (h1 : '\'' ∉ s.data) :
    (strLit '"' s).map replChar = strLit '"' s := by
  simp only [strLit, List.map_cons, List.map_append]
  rw [map_replChar_escAll_double s.data h1]
  rfl

/-- The quote-freedom condition on one table entry under which the two
serialization styles coincide after quote replacement. -/
def entryQuoteFree (p : String × String) : Prop :=
  '\'' ∉ p.1.data ∧ '"' ∉ p.1.data ∧ '\'' ∉ p.2.data ∧ '"' ∉ p.2.data

instance (p : String × String) : Decidable (entryQuoteFree p) := by
  unfold entryQuoteFree
  infer_instance

theorem map_replChar_entry_single (p : String × String) (h : entryQuoteFree p) :
    (entryChars '\'' p).map replChar = entryChars '"' p := by
  simp only [entryChars, List.map_append, List.map_cons]
  rw [map_replChar_strLit_single p.1 h.1 h.2.1, map_replChar_strLit_single p.2 h.2.2.1 h.2.2.2]
  rfl

theorem map_replChar_entry_double (p : String × String) (h : entryQuoteFree p) :
    (entryChars '"' p).map replChar = entryChars '"' p := by
  simp only [entryChars, List.map_append, List.map_cons]
  rw [map_replChar_strLit_double p.1 h.1, map_replChar_strLit_double p.2 h.2.2.1]
  rfl

theorem map_replChar_body_single (tbl : List (String × String))
    (h : ∀ p ∈ tbl, entryQuoteFree p) :
    (bodyChars '\'' tbl).map replChar = bodyChars '"' tbl := by
  induction tbl with
  | nil => rfl
  | cons p rest ih =>
    cases rest with
    | nil =>
      simp only [bodyChars]
      exact map_replChar_entry_single p (h p (List.mem_cons_self p []))
    | cons q rest2 =>
      simp only [bodyChars, List.map_append, List.map_cons]
      rw [map_replChar_entry_single p (h p (List.mem_cons_self p _)),
        ih fun r hr => h r (List.mem_cons_of_mem p hr)]
      rfl

theorem map_replChar_body_double (tbl : List (String × String))
    (h : ∀ p ∈ tbl, entryQuoteFree p) :
    (bodyChars '"' tbl).map replChar = bodyChars '"' tbl := by
  induction tbl with
  | nil => rfl
  | cons p rest ih =>
    cases rest with
    | nil =>
      simp only [bodyChars]
      exact map_replChar_entry_double p (h p (List.mem_cons_self p []))
    | cons q rest2 =>
      simp only [bodyChars, List.map_append, List.map_cons]
      rw [map_replChar_entry_double p (h p (List.mem_cons_self p _)),
        ih fun r hr => h r (List.mem_cons_of_mem p hr)]
      rfl

theorem map_replChar_writeSingle (tbl : List (String × String))
    (h : ∀ p ∈ tbl, entryQuoteFree p) :
    (writeSingle tbl).map replChar = writeDouble tbl := by
  simp only [writeSingle, writeDouble, List.map_cons, List.map_append]
  rw [map_replChar_body_single tbl h]
  rfl

theorem map_replChar_writeDouble (tbl : List (String × String))
    (h : ∀ p ∈ tbl, entryQuoteFree p) :
    (writeDouble tbl).map replChar = writeDouble tbl := by
  simp only [writeDouble, List.map_cons, List.map_append]
  rw [map_replChar_body_double tbl h]
  rfl

/-- C7, counterexample: for the table `{"k": "a\x22b"}` — a value containing
a double-quote character — the double-quoted file loads to the table while
the single-quoted file fails to decode: the global `'` → `"` replacement
turns the escaped delimiter of the single-quoted literal into a closing
double quote.  So the two quote styles do not load to the same mapping for
every table. -/
theorem claim_C7_counterexample :
    loadMapping (writeDouble [("k", "a\"b")]) = .ok [("k", "a\"b")] ∧
    loadMapping (writeSingle [("k", "a\"b")]) =
      .error (.decodeError "expected comma or closing brace") :=
  ⟨rfl, rfl⟩

/-- C7, amended: for every key/value table whose keys and values contain no
single-quote and no double-quote character, the file written with
single-quoted string literals and the file written with double-quoted string
literals load to the same mapping. -/
theorem quote_styles_load_equal (tbl : List (String × String))
    (h : ∀ p ∈ tbl, entryQuoteFree p) :
    loadMapping (writeSingle tbl) = loadMapping (writeDouble tbl) := by
  simp only [loadMapping, replaceQuotes]
  rw [map_replChar_writeSingle tbl h, map_replChar_writeDouble tbl h]

/-- Witness for `quote_styles_load_equal` at the table `{"k": "v"}`. -/
theorem quote_styles_load_equal_witness :
    loadMapping (writeSingle [("k", "v")]) = loadMapping (writeDouble [("k", "v")]) :=
  quote_styles_load_equal [("k", "v")] (by decide)

end QAClipboard
